import Mathlib

/-!
Shallow embedding of `src/05-objects-tasks.js`: the `Rectangle` factory and
the CSS selector builder (`SelectorCreator` class plus the `cssSelectorBuilder`
facade).  JS strings are Lean `String`s, JS arrays are Lean `List`s, the
numeric `line` field is a `Nat`, and the two `throw`-ing helpers `error1` /
`error2` are modelled by an error type `SelErr` returned through `Except`.
JS truthiness tests on strings (`if (this.idData)`) become `≠ ""` tests, and
the length test on the `pseudoElementData` array becomes `≠ []`.
-/

/-- Result object of the JS `Rectangle(width, height)` factory: a record with
`width`, `height` and a `getArea` method.  JS numbers are modelled as `Int`. -/
structure RectangleObj where
  width : Int
  height : Int
deriving DecidableEq, Repr

/-- The `getArea()` method: `return this.width * this.height;` — it reads the
current fields of the receiver at call time. -/
def RectangleObj.getArea (r : RectangleObj) : Int :=
  r.width * r.height

/-- `function Rectangle(width, height)` returns `{ width, height, getArea() {...} }`. -/
def Rectangle (width height : Int) : RectangleObj :=
  { width := width, height := height }

/-- The two errors the selector builder can throw. -/
inductive SelErr where
  /-- thrown by `error1`: "Element, id and pseudo-element should not occur
  more then one time inside the selector" (the spec's DuplicateError). -/
  | duplicate
  /-- thrown by `error2`: "Selector parts should be arranged in the following
  order: element, id, class, attribute, pseudo-class, pseudo-element"
  (the spec's OrderError). -/
  | order
deriving DecidableEq, Repr

/-- `const error1` throws `new Error("Element, id and pseudo-element should
not occur more then one time inside the selector")`. -/
def error1 : SelErr := .duplicate

/-- `const error2` throws `new Error("Selector parts should be arranged in
the following order: element, id, class, attribute, pseudo-class,
pseudo-element")`. -/
def error2 : SelErr := .order

/-- State of a `SelectorCreator` instance, one field per field set by the JS
constructor. -/
structure SelectorCreator where
  idData : String
  elementData : String
  classData : List String
  attrData : List String
  pseudoClassData : List String
  pseudoElementData : List String
  combinator : String
  selector : String
  line : Nat
  availableLine : List String
deriving DecidableEq, Repr

/-- `new SelectorCreator()`: the constructor's initial state. -/
def newSelectorCreator : SelectorCreator where
  idData := ""
  elementData := ""
  classData := []
  attrData := []
  pseudoClassData := []
  pseudoElementData := []
  combinator := ""
  selector := ""
  line := 0
  availableLine :=
    ["elementData", "idData", "classData", "attrData",
     "pseudoClassData", "pseudoElementData"]

/-- `id(value)`: `if (this.line > 2) error2(); if (this.idData) { error1(); }
else { this.idData = \x7b#${value}\x7d; } this.line = 2; return this;` -/
def SelectorCreator.id (b : SelectorCreator) (value : String) :
    Except SelErr SelectorCreator :=
  if b.line > 2 then .error error2
  else if b.idData ≠ "" then .error error1
  else .ok { b with idData := "#" ++ value, line := 2 }

/-- `element(value)`: order check `line > 1`, duplicate check on
`elementData`, store the raw value, set `line = 1`. -/
def SelectorCreator.element (b : SelectorCreator) (value : String) :
    Except SelErr SelectorCreator :=
  if b.line > 1 then .error error2
  else if b.elementData ≠ "" then .error error1
  else .ok { b with elementData := value, line := 1 }

/-- `class(value)` (named `cls` here because `class` is a Lean keyword):
order check `line > 3`, push `"." + value`, set `line = 3`. -/
def SelectorCreator.cls (b : SelectorCreator) (value : String) :
    Except SelErr SelectorCreator :=
  if b.line > 3 then .error error2
  else .ok { b with classData := b.classData ++ ["." ++ value], line := 3 }

/-- `attr(value)`: order check `line > 4`, push `"[" + value + "]"`,
set `line = 4`. -/
def SelectorCreator.attr (b : SelectorCreator) (value : String) :
    Except SelErr SelectorCreator :=
  if b.line > 4 then .error error2
  else .ok { b with attrData := b.attrData ++ ["[" ++ value ++ "]"], line := 4 }

/-- `pseudoClass(value)`: order check `line > 5`, push `":" + value`,
set `line = 5`. -/
def SelectorCreator.pseudoClass (b : SelectorCreator) (value : String) :
    Except SelErr SelectorCreator :=
  if b.line > 5 then .error error2
  else .ok { b with pseudoClassData := b.pseudoClassData ++ [":" ++ value], line := 5 }

/-- `pseudoElement(value)`: order check `line > 6`, duplicate check
`pseudoElementData.length !== 0`, push `"::" + value`, set `line = 6`. -/
def SelectorCreator.pseudoElement (b : SelectorCreator) (value : String) :
    Except SelErr SelectorCreator :=
  if b.line > 6 then .error error2
  else if b.pseudoElementData ≠ ([] : List String) then .error error1
  else .ok { b with pseudoElementData := b.pseudoElementData ++ ["::" ++ value], line := 6 }

/-- `setCombine(combinator, selector)`: stores both arguments and returns the
builder. -/
def SelectorCreator.setCombine (b : SelectorCreator) (combinator selector : String) :
    SelectorCreator :=
  { b with combinator := combinator, selector := selector }

/-- JS `array.join("")`: concatenation of the elements in order. -/
def sjoin : List String → String
  | [] => ""
  | s :: rest => s ++ sjoin rest

/-- `stringify()`: `part1 = elementData + idData + classData.join("")`,
`part2 = attrData.join("") + pseudoClassData.join("")`,
`part3 = pseudoElementData.join("") + link` where `link = combinator`
(note: `this.selector` is never read), result `part1 + part2 + part3`. -/
def SelectorCreator.stringify (b : SelectorCreator) : String :=
  let link := b.combinator
  let part1 := b.elementData ++ b.idData ++ sjoin b.classData
  let part2 := sjoin b.attrData ++ sjoin b.pseudoClassData
  let part3 := sjoin b.pseudoElementData ++ link
  part1 ++ part2 ++ part3

/-- The `stringify()` method as a state transformer, for reasoning about its
effect on the receiver: the JS method body contains no assignment to any
field of `this`, so the state component it returns is the receiver itself. -/
def SelectorCreator.stringifyM (b : SelectorCreator) : String × SelectorCreator :=
  (b.stringify, b)

/-- Facade `cssSelectorBuilder.element(value)`. -/
def cssSelectorBuilder.element (value : String) : Except SelErr SelectorCreator :=
  newSelectorCreator.element value

/-- Facade `cssSelectorBuilder.id(value)`. -/
def cssSelectorBuilder.id (value : String) : Except SelErr SelectorCreator :=
  newSelectorCreator.id value

/-- Facade `cssSelectorBuilder.class(value)`. -/
def cssSelectorBuilder.cls (value : String) : Except SelErr SelectorCreator :=
  newSelectorCreator.cls value

/-- Facade `cssSelectorBuilder.attr(value)`. -/
def cssSelectorBuilder.attr (value : String) : Except SelErr SelectorCreator :=
  newSelectorCreator.attr value

/-- Facade `cssSelectorBuilder.pseudoClass(value)`. -/
def cssSelectorBuilder.pseudoClass (value : String) : Except SelErr SelectorCreator :=
  newSelectorCreator.pseudoClass value

/-- Facade `cssSelectorBuilder.pseudoElement(value)`. -/
def cssSelectorBuilder.pseudoElement (value : String) : Except SelErr SelectorCreator :=
  newSelectorCreator.pseudoElement value

/-- Facade `combine(selector1, combinator, selector2)`:
`new SelectorCreator().element(\x7b${selector1.stringify()} ${combinator}
${selector2.stringify()}\x7d)`. -/
def cssSelectorBuilder.combine (selector1 : SelectorCreator) (combinator : String)
    (selector2 : SelectorCreator) : Except SelErr SelectorCreator :=
  newSelectorCreator.element
    (selector1.stringify ++ " " ++ combinator ++ " " ++ selector2.stringify)

/-- One fragment-method call on a builder, with its payload. -/
inductive FragCall where
  | element (v : String)
  | id (v : String)
  | cls (v : String)
  | attr (v : String)
  | pseudoClass (v : String)
  | pseudoElement (v : String)
deriving DecidableEq, Repr

/-- Dispatch a fragment call to the corresponding method. -/
def applyCall (b : SelectorCreator) : FragCall → Except SelErr SelectorCreator
  | .element v => b.element v
  | .id v => b.id v
  | .cls v => b.cls v
  | .attr v => b.attr v
  | .pseudoClass v => b.pseudoClass v
  | .pseudoElement v => b.pseudoElement v

/-- The rank of each fragment kind in the required CSS part ordering;
it is the value the method stores into `line` on success. -/
def rank : FragCall → Nat
  | .element _ => 1
  | .id _ => 2
  | .cls _ => 3
  | .attr _ => 4
  | .pseudoClass _ => 5
  | .pseudoElement _ => 6

/-- Run a sequence of fragment calls on a builder, stopping at the first
thrown error. -/
def runCalls (b : SelectorCreator) : List FragCall → Except SelErr SelectorCreator
  | [] => .ok b
  | c :: cs =>
    match applyCall b c with
    | .error e => .error e
    | .ok b1 => runCalls b1 cs

/-- The element payloads of a call list (stored raw). -/
def elemsOf : List FragCall → List String
  | [] => []
  | .element v :: cs => v :: elemsOf cs
  | _ :: cs => elemsOf cs

/-- The id payloads of a call list, decorated `"#" + v`. -/
def idsOf : List FragCall → List String
  | [] => []
  | .id v :: cs => ("#" ++ v) :: idsOf cs
  | _ :: cs => idsOf cs

/-- The class payloads of a call list, decorated `"." + v`, in call order. -/
def clssOf : List FragCall → List String
  | [] => []
  | .cls v :: cs => ("." ++ v) :: clssOf cs
  | _ :: cs => clssOf cs

/-- The attribute payloads of a call list, decorated `"[" + v + "]"`,
in call order. -/
def attrsOf : List FragCall → List String
  | [] => []
  | .attr v :: cs => ("[" ++ v ++ "]") :: attrsOf cs
  | _ :: cs => attrsOf cs

/-- The pseudo-class payloads of a call list, decorated `":" + v`,
in call order. -/
def pcsOf : List FragCall → List String
  | [] => []
  | .pseudoClass v :: cs => (":" ++ v) :: pcsOf cs
  | _ :: cs => pcsOf cs

/-- The pseudo-element payloads of a call list, decorated `"::" + v`. -/
def pesOf : List FragCall → List String
  | [] => []
  | .pseudoElement v :: cs => ("::" ++ v) :: pesOf cs
  | _ :: cs => pesOf cs

/-- The rendering the spec describes for a sequence of fragment calls:
concatenation of the decorated fragments in fixed kind order (element, id,
classes, attributes, pseudo-classes, pseudo-element), call order within each
multi-valued kind. -/
def specRender (cs : List FragCall) : String :=
  sjoin (elemsOf cs) ++ sjoin (idsOf cs) ++ sjoin (clssOf cs) ++
    sjoin (attrsOf cs) ++ sjoin (pcsOf cs) ++ sjoin (pesOf cs)

lemma combine_eq (a : SelectorCreator) (c : String) (b : SelectorCreator) :
    cssSelectorBuilder.combine a c b =
      Except.ok { newSelectorCreator with
        elementData := a.stringify ++ " " ++ c ++ " " ++ b.stringify
        line := 1 } := rfl

lemma stringify_of_element_only (s : String) :
    ({ newSelectorCreator with elementData := s, line := 1 } :
      SelectorCreator).stringify = s := by
  simp [SelectorCreator.stringify, newSelectorCreator, sjoin,
    String.append_empty]

lemma combined_string_ne_empty (x c y : String) :
    x ++ " " ++ c ++ " " ++ y ≠ "" := by
  intro h
  have hlen := congrArg String.length h
  simp [String.length_append] at hlen
  exact absurd hlen.1.1.1.2 (by decide)


lemma string_empty_append (s : String) : "" ++ s = s := rfl

lemma sjoin_append (l1 l2 : List String) :
    sjoin (l1 ++ l2) = sjoin l1 ++ sjoin l2 := by
  induction l1 with
  | nil => simp [sjoin, string_empty_append]
  | cons s t ih => simp [sjoin, ih, String.append_assoc]

lemma elemsOf_cons (c : FragCall) (cs : List FragCall) :
    elemsOf (c :: cs) = elemsOf [c] ++ elemsOf cs := by
  cases c <;> simp [elemsOf]

lemma idsOf_cons (c : FragCall) (cs : List FragCall) :
    idsOf (c :: cs) = idsOf [c] ++ idsOf cs := by
  cases c <;> simp [idsOf]

lemma clssOf_cons (c : FragCall) (cs : List FragCall) :
    clssOf (c :: cs) = clssOf [c] ++ clssOf cs := by
  cases c <;> simp [clssOf]

lemma attrsOf_cons (c : FragCall) (cs : List FragCall) :
    attrsOf (c :: cs) = attrsOf [c] ++ attrsOf cs := by
  cases c <;> simp [attrsOf]

lemma pcsOf_cons (c : FragCall) (cs : List FragCall) :
    pcsOf (c :: cs) = pcsOf [c] ++ pcsOf cs := by
  cases c <;> simp [pcsOf]

lemma pesOf_cons (c : FragCall) (cs : List FragCall) :
    pesOf (c :: cs) = pesOf [c] ++ pesOf cs := by
  cases c <;> simp [pesOf]

lemma applyCall_ok_fields {b b1 : SelectorCreator} {c : FragCall}
    (h : applyCall b c = .ok b1) :
    b1.elementData = b.elementData ++ sjoin (elemsOf [c]) ∧
    b1.idData = b.idData ++ sjoin (idsOf [c]) ∧
    b1.classData = b.classData ++ clssOf [c] ∧
    b1.attrData = b.attrData ++ attrsOf [c] ∧
    b1.pseudoClassData = b.pseudoClassData ++ pcsOf [c] ∧
    b1.pseudoElementData = b.pseudoElementData ++ pesOf [c] ∧
    b1.combinator = b.combinator := by
  cases c with
  | element v =>
    simp only [applyCall, SelectorCreator.element] at h
    split_ifs at h with h1 h2
    simp only [Except.ok.injEq] at h
    subst h
    push_neg at h2
    simp [elemsOf, idsOf, clssOf, attrsOf, pcsOf, pesOf, sjoin,
      String.append_empty, string_empty_append, h2]
  | id v =>
    simp only [applyCall, SelectorCreator.id] at h
    split_ifs at h with h1 h2
    simp only [Except.ok.injEq] at h
    subst h
    push_neg at h2
    simp [elemsOf, idsOf, clssOf, attrsOf, pcsOf, pesOf, sjoin,
      String.append_empty, string_empty_append, h2]
  | cls v =>
    simp only [applyCall, SelectorCreator.cls] at h
    split_ifs at h with h1
    simp only [Except.ok.injEq] at h
    subst h
    simp [elemsOf, idsOf, clssOf, attrsOf, pcsOf, pesOf, sjoin,
      String.append_empty]
  | attr v =>
    simp only [applyCall, SelectorCreator.attr] at h
    split_ifs at h with h1
    simp only [Except.ok.injEq] at h
    subst h
    simp [elemsOf, idsOf, clssOf, attrsOf, pcsOf, pesOf, sjoin,
      String.append_empty]
  | pseudoClass v =>
    simp only [applyCall, SelectorCreator.pseudoClass] at h
    split_ifs at h with h1
    simp only [Except.ok.injEq] at h
    subst h
    simp [elemsOf, idsOf, clssOf, attrsOf, pcsOf, pesOf, sjoin,
      String.append_empty]
  | pseudoElement v =>
    simp only [applyCall, SelectorCreator.pseudoElement] at h
    split_ifs at h with h1 h2
    simp only [Except.ok.injEq] at h
    subst h
    simp [elemsOf, idsOf, clssOf, attrsOf, pcsOf, pesOf, sjoin,
      String.append_empty]

lemma runCalls_ok_fields (cs : List FragCall) :
    ∀ (b b' : SelectorCreator), runCalls b cs = .ok b' →
      b'.elementData = b.elementData ++ sjoin (elemsOf cs) ∧
      b'.idData = b.idData ++ sjoin (idsOf cs) ∧
      b'.classData = b.classData ++ clssOf cs ∧
      b'.attrData = b.attrData ++ attrsOf cs ∧
      b'.pseudoClassData = b.pseudoClassData ++ pcsOf cs ∧
      b'.pseudoElementData = b.pseudoElementData ++ pesOf cs ∧
      b'.combinator = b.combinator := by
  induction cs with
  | nil =>
    intro b b' h
    simp only [runCalls, Except.ok.injEq] at h
    subst h
    simp [elemsOf, idsOf, clssOf, attrsOf, pcsOf, pesOf, sjoin,
      String.append_empty]
  | cons c cs ih =>
    intro b b' h
    rw [runCalls] at h
    cases hc : applyCall b c with
    | error e => rw [hc] at h; simp at h
    | ok b1 =>
      rw [hc] at h
      obtain ⟨e1, i1, c1, a1, p1, q1, m1⟩ := ih b1 b' h
      obtain ⟨e0, i0, c0, a0, p0, q0, m0⟩ := applyCall_ok_fields hc
      refine ⟨?_, ?_, ?_, ?_, ?_, ?_, ?_⟩
      · rw [e1, e0, elemsOf_cons c cs, sjoin_append (elemsOf [c]) (elemsOf cs),
          String.append_assoc]
      · rw [i1, i0, idsOf_cons c cs, sjoin_append (idsOf [c]) (idsOf cs),
          String.append_assoc]
      · rw [c1, c0, clssOf_cons c cs, List.append_assoc]
      · rw [a1, a0, attrsOf_cons c cs, List.append_assoc]
      · rw [p1, p0, pcsOf_cons c cs, List.append_assoc]
      · rw [q1, q0, pesOf_cons c cs, List.append_assoc]
      · rw [m1, m0]

/-- C1, as stated, is false: on `id("x").class("c").id("y")` the builder's
`line` is 3 > 2 when the second `id` call runs, and the order check fires
first, so the call throws the order error (`error2`), not the duplicate
error (`error1`). -/
theorem c1_duplicate_claim_counterexample :
    ((newSelectorCreator.id "x").bind (fun b => b.cls "c")).bind
        (fun b => b.id "y") = Except.error SelErr.order ∧
      SelErr.order ≠ SelErr.duplicate := by
  exact ⟨rfl, by decide⟩

/-- C1 (amended): on a second invocation of a singleton fragment method the
ordering check runs first: if the builder's stage strictly exceeds the
method's rank the call fails with OrderError; DuplicateError fires only when
the stage is within the method's rank and the singleton field is already
populated. -/
theorem c1_singleton_second_call_error_kind (b : SelectorCreator) (v : String) :
    (b.idData ≠ "" →
      b.id v = if b.line > 2 then Except.error SelErr.order
        else Except.error SelErr.duplicate) ∧
    (b.elementData ≠ "" →
      b.element v = if b.line > 1 then Except.error SelErr.order
        else Except.error SelErr.duplicate) ∧
    (b.pseudoElementData ≠ [] →
      b.pseudoElement v = if b.line > 6 then Except.error SelErr.order
        else Except.error SelErr.duplicate) := by
  refine ⟨fun hd => ?_, fun hd => ?_, fun hd => ?_⟩ <;>
    simp only [SelectorCreator.id, SelectorCreator.element,
      SelectorCreator.pseudoElement] <;>
    split_ifs <;> simp_all [error1, error2]

/-- C1 witness: a builder at stage 3 with all three singleton fields
populated; the second `id` and `element` calls throw the order error, the
second `pseudoElement` call throws the duplicate error. -/
theorem c1_singleton_second_call_error_kind_witness :
    ({ newSelectorCreator with
        idData := "#x", elementData := "a",
        pseudoElementData := ["::p"], line := 3 } : SelectorCreator).id "y" =
        Except.error SelErr.order ∧
    ({ newSelectorCreator with
        idData := "#x", elementData := "a",
        pseudoElementData := ["::p"], line := 3 } : SelectorCreator).element "y" =
        Except.error SelErr.order ∧
    ({ newSelectorCreator with
        idData := "#x", elementData := "a",
        pseudoElementData := ["::p"], line := 3 } : SelectorCreator).pseudoElement "y" =
        Except.error SelErr.duplicate := by
  obtain ⟨h1, h2, h3⟩ := c1_singleton_second_call_error_kind
    { newSelectorCreator with
      idData := "#x", elementData := "a",
      pseudoElementData := ["::p"], line := 3 } "y"
  refine ⟨?_, ?_, ?_⟩
  · rw [h1 (by decide), if_pos (by decide)]
  · rw [h2 (by decide), if_pos (by decide)]
  · rw [h3 (by decide), if_neg (by decide)]

/-- C2: for every sequence of fragment calls that runs without error from a
fresh builder, `stringify()` returns the concatenation, in fixed kind order,
of the stored decorated fragments (element raw, id `#v`, classes `.v` in
call order, attributes `[v]` in call order, pseudo-classes `:v` in call
order, pseudo-element `::v`). -/
theorem c2_stringify_renders_kind_order (cs : List FragCall) (b : SelectorCreator)
    (h : runCalls newSelectorCreator cs = .ok b) :
    b.stringify = specRender cs := by
  obtain ⟨e, i, cl, a, p, q, m⟩ := runCalls_ok_fields cs newSelectorCreator b h
  simp [SelectorCreator.stringify, specRender, e, i, cl, a, p, q, m,
    newSelectorCreator, string_empty_append, String.append_empty,
    String.append_assoc]

/-- C2 witness: `id("main").class("container").class("editable").stringify()`
equals `"#main.container.editable"`. -/
theorem c2_stringify_renders_kind_order_witness :
    ({ newSelectorCreator with
        idData := "#main",
        classData := [".container", ".editable"], line := 3 } :
      SelectorCreator).stringify =
      specRender [FragCall.id "main", FragCall.cls "container",
        FragCall.cls "editable"] ∧
    specRender [FragCall.id "main", FragCall.cls "container",
        FragCall.cls "editable"] = "#main.container.editable" :=
  ⟨c2_stringify_renders_kind_order
      [FragCall.id "main", FragCall.cls "container", FragCall.cls "editable"]
      { newSelectorCreator with
        idData := "#main",
        classData := [".container", ".editable"], line := 3 } rfl,
    rfl⟩

/-- C3: for all selectors `a`, `b` and any combinator token string `c`
(no validation of `c`), `combine(a, c, b).stringify()` equals
`a.stringify() + " " + c + " " + b.stringify()`. -/
theorem c3_combine_stringify_concat (a : SelectorCreator) (c : String)
    (b : SelectorCreator) :
    (cssSelectorBuilder.combine a c b).map SelectorCreator.stringify =
      Except.ok (a.stringify ++ " " ++ c ++ " " ++ b.stringify) := by
  rw [combine_eq]
  simp only [Except.map]
  rw [stringify_of_element_only]

/-- C4: the builder produced by `combine(a, c, b)` copies the operands'
rendered strings at combine time; a subsequent successful fragment call on
`a` (producing `a'`) or on `b` (producing `b'`) leaves the combined result's
`stringify()` equal to the concatenation of the operands' strings as they
were at combine time. -/
theorem c4_combine_copies_operands (a b s a2 b2 : SelectorCreator)
    (c : String) (f g : FragCall)
    (hs : cssSelectorBuilder.combine a c b = .ok s)
    (ha : applyCall a f = .ok a2) (hb : applyCall b g = .ok b2) :
    s.stringify = a.stringify ++ " " ++ c ++ " " ++ b.stringify := by
  rw [combine_eq] at hs
  simp only [Except.ok.injEq] at hs
  subst hs
  exact stringify_of_element_only _

/-- C4 witness: combining `element("a")` and `element("b")` with `"+"`, then
mutating both operands with a further `class` call, leaves the combined
string `"a + b"`. -/
theorem c4_combine_copies_operands_witness :
    SelectorCreator.stringify { newSelectorCreator with
      elementData := "a + b", line := 1 } =
      SelectorCreator.stringify { newSelectorCreator with
        elementData := "a", line := 1 } ++ " " ++ "+" ++ " " ++
      SelectorCreator.stringify { newSelectorCreator with
        elementData := "b", line := 1 } :=
  c4_combine_copies_operands
    { newSelectorCreator with elementData := "a", line := 1 }
    { newSelectorCreator with elementData := "b", line := 1 }
    { newSelectorCreator with elementData := "a + b", line := 1 }
    { newSelectorCreator with elementData := "a", classData := [".z"], line := 3 }
    { newSelectorCreator with elementData := "b", classData := [".z"], line := 3 }
    "+" (FragCall.cls "z") (FragCall.cls "z") rfl rfl rfl

/-- C5: a fragment call throws the order error exactly when the builder's
current `line` strictly exceeds the method's rank; and `class` called twice
consecutively succeeds with both decorated values accumulated in order. -/
theorem c5_order_error_iff_stage_exceeds_rank (b : SelectorCreator) (f : FragCall) :
    (applyCall b f = .error SelErr.order ↔ rank f < b.line) ∧
    ((newSelectorCreator.cls "c1").bind (fun x => x.cls "c2")).map
        SelectorCreator.classData = Except.ok [".c1", ".c2"] := by
  constructor
  · cases f <;>
      simp only [applyCall, SelectorCreator.element, SelectorCreator.id,
        SelectorCreator.cls, SelectorCreator.attr, SelectorCreator.pseudoClass,
        SelectorCreator.pseudoElement, rank] <;>
      split_ifs <;> simp_all [error1, error2]
  · rfl

/-- C6: on every successful fragment call the builder's `line` becomes the
method's rank, and it never decreases. -/
theorem c6_stage_monotone (b : SelectorCreator) (f : FragCall)
    (b2 : SelectorCreator) (h : applyCall b f = .ok b2) :
    b2.line = rank f ∧ b.line ≤ b2.line := by
  cases f <;>
    simp only [applyCall, SelectorCreator.element, SelectorCreator.id,
      SelectorCreator.cls, SelectorCreator.attr, SelectorCreator.pseudoClass,
      SelectorCreator.pseudoElement] at h <;>
    split_ifs at h <;>
    simp only [Except.ok.injEq] at h <;>
    subst h <;>
    refine ⟨rfl, ?_⟩ <;>
    simp <;> omega

/-- C6 witness: `id("a")` on a fresh builder succeeds, sets `line` to
rank 2, and does not decrease the initial `line = 0`. -/
theorem c6_stage_monotone_witness :
    ({ newSelectorCreator with idData := "#a", line := 2 } : SelectorCreator).line =
        rank (FragCall.id "a") ∧
      newSelectorCreator.line ≤
        ({ newSelectorCreator with idData := "#a", line := 2 } : SelectorCreator).line :=
  c6_stage_monotone newSelectorCreator (FragCall.id "a")
    { newSelectorCreator with idData := "#a", line := 2 } rfl

/-- C7: `stringify()` is pure: as a state transformer it leaves every field
of the builder unchanged, and calling it twice in a row on the same builder
yields identical strings. -/
theorem c7_stringify_pure_idempotent (b : SelectorCreator) :
    b.stringifyM.2 = b ∧ b.stringifyM.2.stringifyM.1 = b.stringifyM.1 :=
  ⟨rfl, rfl⟩

/-- C8: the `selector` argument stored by `setCombine` is never read by
`stringify()`: the output is independent of it and equals the compound parts
followed by the combinator alone, so the right-hand selector is never
rendered through this mechanism. -/
theorem c8_setCombine_selector_ignored (b : SelectorCreator) (c s t : String) :
    (b.setCombine c s).stringify = (b.setCombine c t).stringify ∧
    (b.setCombine c s).stringify =
      b.elementData ++ b.idData ++ sjoin b.classData ++ sjoin b.attrData ++
        sjoin b.pseudoClassData ++ sjoin b.pseudoElementData ++ c := by
  constructor
  · rfl
  · simp [SelectorCreator.stringify, SelectorCreator.setCombine,
      String.append_assoc]

/-- C9: `combine(a, c, b)` yields a builder at stage 1 whose `elementData`
holds the entire combined string; `element` on it throws the duplicate
error, `id` on it succeeds and renders the combined string followed by
`#value`, and `class`, `attr`, `pseudoClass`, `pseudoElement` on it all
succeed. -/
theorem c9_combine_result_is_stage_one_element (a : SelectorCreator)
    (c : String) (b : SelectorCreator) :
    ∃ s, cssSelectorBuilder.combine a c b = Except.ok s ∧
      s.line = 1 ∧
      s.elementData = a.stringify ++ " " ++ c ++ " " ++ b.stringify ∧
      (∀ v, s.element v = Except.error SelErr.duplicate) ∧
      (∀ v, (s.id v).map SelectorCreator.stringify =
        Except.ok (a.stringify ++ " " ++ c ++ " " ++ b.stringify ++ ("#" ++ v))) ∧
      (∀ v, ∃ t, s.cls v = Except.ok t) ∧
      (∀ v, ∃ t, s.attr v = Except.ok t) ∧
      (∀ v, ∃ t, s.pseudoClass v = Except.ok t) ∧
      (∀ v, ∃ t, s.pseudoElement v = Except.ok t) := by
  have hne := combined_string_ne_empty a.stringify c b.stringify
  refine ⟨{ newSelectorCreator with
      elementData := a.stringify ++ " " ++ c ++ " " ++ b.stringify, line := 1 },
    combine_eq a c b, rfl, rfl, ?_, ?_, fun v => ⟨_, rfl⟩, fun v => ⟨_, rfl⟩,
    fun v => ⟨_, rfl⟩, fun v => ⟨_, rfl⟩⟩
  · intro v
    simp [SelectorCreator.element, newSelectorCreator, hne, error1]
  · intro v
    simp [SelectorCreator.id, SelectorCreator.stringify, newSelectorCreator,
      Except.map, sjoin, String.append_empty, string_empty_append,
      String.append_assoc]

/-- C10: `Rectangle(w, h)` returns an object whose `width` is `w`, whose
`height` is `h`, and whose `getArea()` returns the product of the current
`width` and `height` fields at call time. -/
theorem c10_rectangle_fields_and_area (w h : Int) :
    (Rectangle w h).width = w ∧ (Rectangle w h).height = h ∧
      ∀ r : RectangleObj, r.getArea = r.width * r.height :=
  ⟨rfl, rfl, fun _ => rfl⟩
